import Mathlib

/-!
Shallow embedding of the assertion and state-binding engine of the
TestXLAPI data-driven API test runner (source files `src/validators.py`,
`src/parsers.py`, `src/framework.py`), together with theorems settling the
specification claims about it.

Modelling conventions:
* Python values flowing through the engine (JSON-shaped data plus the
  `None` / bool / int / float / str scalars) are modelled by `PyVal`;
  machine floats are modelled by rationals (the engine only does exact
  small arithmetic on them).
* A Python function that can raise models its exceptions with `Except` /
  `Option`; `evaluate_condition` catches every exception from its
  evaluation pipeline, which is modelled by pattern-matching on the
  `Except` result.
* The source conflates the Python value `None` with "absent": where it
  returns `None` both for a missing path and for a stored JSON null, the
  embedding does the same with `PyVal.null`.
* Missing spreadsheet cells (pandas `NaN`, for which `pd.isna` is true)
  are modelled as the empty string, which the source treats identically
  (`if not condition or pd.isna(condition)`).
-/

namespace TestXLAPI

/-- Characters the embedding needs symbolically. -/
def sqChar : Char := Char.ofNat 39

def lbraceChar : Char := Char.ofNat 123

def rbraceChar : Char := Char.ofNat 125

/-- Python values as they occur in the engine: `None`, booleans, ints,
floats (as rationals), strings, lists, dicts (association lists, keys
unique in all data handled here, insertion order kept), plus the builtin
function objects held by the condition-evaluation context. -/
inductive PyVal where
  | null : PyVal
  | bool : Bool → PyVal
  | int : ℤ → PyVal
  | float : ℚ → PyVal
  | str : String → PyVal
  | list : List PyVal → PyVal
  | dict : List (String × PyVal) → PyVal
  | builtin : String → PyVal

/-- `[a-zA-Z0-9_]`, the identifier class used by every regex in the
source (`\$([a-zA-Z0-9_]+)`, `([a-zA-Z0-9_]+)\[(\d+)\]`). -/
def isIdentChar (c : Char) : Bool :=
  c.isAlpha || c.isDigit || c == '_'

/-- `[a-zA-Z0-9_\[\].]`, the character class of `result.<path>`
references (`result\.([a-zA-Z0-9_\[\].]+)` in the source). -/
def isPathChar (c : Char) : Bool :=
  isIdentChar c || c == '[' || c == ']' || c == '.'

/-- Numeric value of a list of decimal digit characters (`int(...)` on a
`\d+` regex group, which cannot fail). -/
def digitsVal (ds : List Char) : Nat :=
  ds.foldl (fun a c => 10 * a + (c.toNat - 48)) 0

/-- Python `s.isdigit()` restricted to ASCII: nonempty and all digits. -/
def isDigitStr (s : String) : Bool :=
  !s.toList.isEmpty && s.toList.all Char.isDigit

/-- Python dict lookup `d[k]` / `k in d` on an association list. -/
def lookupD (d : List (String × PyVal)) (k : String) : Option PyVal :=
  match d with
  | [] => Option.none
  | (k', v) :: rest => if k' == k then some v else lookupD rest k

/-- Python `str.split(sep)` for a single-character separator: split at
every occurrence, keeping empty pieces (`"a..b"` gives `["a","","b"]`). -/
def splitOnPred (p : Char → Bool) (cs : List Char) : List (List Char) :=
  match cs with
  | [] => [[]]
  | c :: rest =>
    match splitOnPred p rest with
    | [] => [[]]
    | seg :: segs => if p c then [] :: seg :: segs else (c :: seg) :: segs

/-- Python `str.strip()`: whitespace removed from both ends. -/
def trimChars (cs : List Char) : List Char :=
  ((cs.dropWhile Char.isWhitespace).reverse.dropWhile Char.isWhitespace).reverse

def pyStrip (s : String) : String :=
  String.mk (trimChars s.toList)

/-- Lookup in the environment store (`self.environment_vars`, a Python
dict from variable name to string). -/
def lookupEnv (env : List (String × String)) (k : String) : Option String :=
  match env with
  | [] => Option.none
  | (k', v) :: rest => if k' == k then some v else lookupEnv rest k

/-- Python dict assignment `d[k] = v` on an association list: replace in
place if the key exists, else append (insertion order semantics). -/
def updateEnv (env : List (String × String)) (k v : String) :
    List (String × String) :=
  match env with
  | [] => [(k, v)]
  | (k', v') :: rest =>
    if k' == k then (k', v) :: rest else (k', v') :: updateEnv rest k v

/-- Python dict assignment for `PyVal` dictionaries. -/
def updateDict (d : List (String × PyVal)) (k : String) (v : PyVal) :
    List (String × PyVal) :=
  match d with
  | [] => [(k, v)]
  | (k', v') :: rest =>
    if k' == k then (k', v) :: rest else (k', v') :: updateDict rest k v

/-- `_replace_env_vars` / `RequestParser.replace_env_vars` (identical
code in `src/validators.py` and `src/parsers.py`):
`re.sub(r'\$([a-zA-Z0-9_]+)', replace_var, text)` where `replace_var`
returns the bound value when the name is bound and the original matched
text otherwise.  `re.sub` with a function replacement inserts the
returned value literally and continues scanning after the match, so a
substituted value is never re-scanned. -/
def substChars (fuel : Nat) (env : List (String × String)) (cs : List Char) :
    List Char :=
  match fuel with
  | 0 => cs
  | n + 1 =>
    match cs with
    | [] => []
    | '$' :: rest =>
      let name := rest.takeWhile isIdentChar
      if name.isEmpty then
        '$' :: substChars n env rest
      else
        match lookupEnv env (String.mk name) with
        | some v => v.toList ++ substChars n env (rest.dropWhile isIdentChar)
        | Option.none =>
          '$' :: name ++ substChars n env (rest.dropWhile isIdentChar)
    | c :: rest => c :: substChars n env rest

def replace_env_vars (env : List (String × String)) (text : String) : String :=
  String.mk (substChars (text.length + 1) env text.toList)

/-- The anchored regex `([a-zA-Z0-9_]+)\[(\d+)\]$` applied to one path
segment (`re.match` in `_get_nested_value`): an identifier run, a
bracketed digit run, end of string. -/
def parseIndexSeg (s : String) : Option (String × Nat) :=
  let key := s.toList.takeWhile isIdentChar
  if key.isEmpty then Option.none
  else
    match s.toList.dropWhile isIdentChar with
    | '[' :: rest2 =>
      let ds := rest2.takeWhile Char.isDigit
      if ds.isEmpty then Option.none
      else
        match rest2.dropWhile Char.isDigit with
        | [']'] => some (String.mk key, digitsVal ds)
        | _ => Option.none
    | _ => Option.none

/-- One loop iteration of `Validator._get_nested_value`
(`src/validators.py` lines 71–116), starting from a non-`None` current
value.  Every violation returns `PyVal.null` (the source's `return None`;
absence and a stored JSON null are indistinguishable there). -/
def resolveSegment (cur : PyVal) (seg : String) : PyVal :=
  match parseIndexSeg seg with
  | some (key, idx) =>
    -- `name[idx]`: current must be a dict holding `key`, its value a list,
    -- `idx` in bounds.
    match cur with
    | .dict d =>
      match lookupD d key with
      | some (.list l) => l.getD idx PyVal.null
      | _ => PyVal.null
    | _ => PyVal.null
  | Option.none =>
    if isDigitStr seg then
      -- bare integer segment: current must be a list, index in bounds.
      match cur with
      | .list l => l.getD (digitsVal seg.toList) PyVal.null
      | _ => PyVal.null
    else
      -- bare identifier: dict key lookup, or `length` of a list.
      match cur with
      | .dict d =>
        match lookupD d seg with
        | some v => v
        | Option.none => PyVal.null
      | .list l => if seg == "length" then PyVal.int l.length else PyVal.null
      | _ => PyVal.null

/-- `Validator._get_nested_value`: empty path returns the object itself;
otherwise split on `.` and walk the segments left to right,
short-circuiting to `None` (here `PyVal.null`) once the current value is
`None`. -/
def _get_nested_value (obj : PyVal) (path : String) : PyVal :=
  if path == "" then obj
  else
    ((splitOnPred (fun c => c == '.') path.toList).map String.mk).foldl
      (fun cur seg =>
        match cur with
        | PyVal.null => PyVal.null
        | _ => resolveSegment cur seg)
      obj

/-- Escape for `json.dumps` string output (common cases; control
characters other than newline/tab/CR do not occur in this development). -/
def escapeJsonChar (c : Char) : List Char :=
  if c == '"' then ['\\', '"']
  else if c == '\\' then ['\\', '\\']
  else if c == '\n' then ['\\', 'n']
  else if c == '\t' then ['\\', 't']
  else if c == '\r' then ['\\', 'r']
  else [c]

def escapeJson (s : String) : String :=
  String.mk (s.toList.foldr (fun c acc => escapeJsonChar c ++ acc) [])

/-- Rendering of a Python float.  The engine only ever renders floats
that are mathematically integers (rendered `x.0` as Python does); the
second branch marks the non-integral corner, which no theorem below
exercises. -/
def renderFloat (q : ℚ) : String :=
  if q.den == 1 then toString q.num ++ ".0"
  else toString q.num ++ "/" ++ toString q.den

mutual
/-- `json.dumps(value, ensure_ascii=False)` with the default separators
`", "` and `": "`.  (`json.dumps` raises on a function object; builtins
never reach it — the arm keeps the function total.) -/
def renderJson : PyVal → String
  | .null => "null"
  | .bool b => if b then "true" else "false"
  | .int n => toString n
  | .float q => renderFloat q
  | .str s => "\"" ++ escapeJson s ++ "\""
  | .list l => "[" ++ renderJsonList l ++ "]"
  | .dict d => "\x7b" ++ renderJsonObj d ++ "\x7d"
  | .builtin n => "<builtin " ++ n ++ ">"

def renderJsonList : List PyVal → String
  | [] => ""
  | [v] => renderJson v
  | v :: rest => renderJson v ++ ", " ++ renderJsonList rest

def renderJsonObj : List (String × PyVal) → String
  | [] => ""
  | [(k, v)] => "\"" ++ escapeJson k ++ "\": " ++ renderJson v
  | (k, v) :: rest =>
    "\"" ++ escapeJson k ++ "\": " ++ renderJson v ++ ", " ++ renderJsonObj rest
end

/-- Python `repr` of a string: single quotes preferred, double quotes
when the string contains a single quote but no double quote; backslash,
the chosen quote and whitespace escapes. -/
def reprStr (s : String) : String :=
  let q : Char :=
    if s.toList.contains sqChar && !(s.toList.contains '"') then '"' else sqChar
  let esc : Char → List Char := fun c =>
    if c == q then ['\\', c]
    else if c == '\\' then ['\\', '\\']
    else if c == '\n' then ['\\', 'n']
    else if c == '\t' then ['\\', 't']
    else if c == '\r' then ['\\', 'r']
    else [c]
  String.mk (q :: s.toList.foldr (fun c acc => esc c ++ acc) [q])

mutual
/-- Python `repr`.  (`repr` of a function object includes its memory
address; the `builtin` arm is a stand-in never exercised by a theorem.) -/
def pyRepr : PyVal → String
  | .null => "None"
  | .bool b => if b then "True" else "False"
  | .int n => toString n
  | .float q => renderFloat q
  | .str s => reprStr s
  | .list l => "[" ++ pyReprList l ++ "]"
  | .dict d => "\x7b" ++ pyReprObj d ++ "\x7d"
  | .builtin n => "<function " ++ n ++ ">"

def pyReprList : List PyVal → String
  | [] => ""
  | [v] => pyRepr v
  | v :: rest => pyRepr v ++ ", " ++ pyReprList rest

def pyReprObj : List (String × PyVal) → String
  | [] => ""
  | [(k, v)] => reprStr k ++ ": " ++ pyRepr v
  | (k, v) :: rest => reprStr k ++ ": " ++ pyRepr v ++ ", " ++ pyReprObj rest
end

/-- Python `str()`: identity on strings, `repr` on everything else that
occurs here (`str` and `repr` agree on `None`, booleans, numbers, lists
and dicts). -/
def pyStr (v : PyVal) : String :=
  match v with
  | .str s => s
  | _ => pyRepr v

/-- Numeric view used by Python `==`: booleans, ints and floats all
compare numerically (`True == 1`, `5 == 5.0`). -/
def pyNumQ (v : PyVal) : Option ℚ :=
  match v with
  | .bool b => some (if b then 1 else 0)
  | .int n => some (n : ℚ)
  | .float q => some q
  | _ => Option.none

/-- The digits/fraction forms accepted by Python `float(str)` (sign,
digits, optional decimal point; exponent/`inf`/`nan` forms are not
exercised in this development). -/
def parseUnsignedQ (cs : List Char) : Option ℚ :=
  let intPart := cs.takeWhile Char.isDigit
  match cs.dropWhile Char.isDigit with
  | [] => if intPart.isEmpty then Option.none else some (digitsVal intPart : ℚ)
  | '.' :: frac =>
    if frac.all Char.isDigit && !(intPart.isEmpty && frac.isEmpty) then
      some ((digitsVal intPart : ℚ) + (digitsVal frac : ℚ) / (10 : ℚ) ^ frac.length)
    else Option.none
  | _ => Option.none

def parseFloatQ (s : String) : Option ℚ :=
  let cs := s.toList.dropWhile Char.isWhitespace
  let cs := (cs.reverse.dropWhile Char.isWhitespace).reverse
  match cs with
  | '-' :: r => (parseUnsignedQ r).map (fun q => -q)
  | '+' :: r => parseUnsignedQ r
  | _ => parseUnsignedQ cs

/-- `float(value)` as used by `is_numeric` / `greater_than` /
`less_than`: numbers and numeric strings convert, everything else raises
(modelled as `Option.none`). -/
def pyFloatQ (v : PyVal) : Option ℚ :=
  match v with
  | .bool b => some (if b then 1 else 0)
  | .int n => some (n : ℚ)
  | .float q => some q
  | .str s => parseFloatQ s
  | _ => Option.none

mutual
/-- Python `==` on the values occurring here: numeric tower compares
numerically across bool/int/float, strings only with strings, `None`
only with `None`, lists pointwise, dicts entrywise (Python dict equality
ignores insertion order; every dict compared in this development is
compared against one with the same key order, where the two notions
coincide), function objects by identity (per context name). -/
def pyEq : PyVal → PyVal → Bool
  | .str a, .str b => a == b
  | .list a, .list b => pyEqList a b
  | .dict a, .dict b => pyEqDict a b
  | .null, .null => true
  | .builtin a, .builtin b => a == b
  | a, b =>
    match pyNumQ a, pyNumQ b with
    | some x, some y => x == y
    | _, _ => false

def pyEqList : List PyVal → List PyVal → Bool
  | [], [] => true
  | a :: as, b :: bs => pyEq a b && pyEqList as bs
  | _, _ => false

def pyEqDict : List (String × PyVal) → List (String × PyVal) → Bool
  | [], [] => true
  | (k, v) :: as, (k', v') :: bs => k == k' && pyEq v v' && pyEqDict as bs
  | _, _ => false
end

def startsWithB : List Char → List Char → Bool
  | [], _ => true
  | _ :: _, [] => false
  | a :: as, b :: bs => a == b && startsWithB as bs

/-- Python substring test `needle in hay`. -/
def infixB (needle hay : List Char) : Bool :=
  match hay with
  | [] => needle.isEmpty
  | _ :: rest => startsWithB needle hay || infixB needle rest

/-- The local `contains` predicate of `evaluate_condition`: stringify
both sides (`None` stringifies to the empty string, per
`str(data) if data is not None else ""`), then substring test. -/
def containsF (data value : PyVal) : Bool :=
  let dataStr := match data with | PyVal.null => "" | _ => pyStr data
  let valueStr := match value with | PyVal.null => "" | _ => pyStr value
  infixB valueStr.toList dataStr.toList

/-- The local `equal` predicate of `evaluate_condition`: plain Python
`==`. -/
def equalF (data value : PyVal) : Bool :=
  pyEq data value

/-- The local `greater_than` predicate (bound as `greatThan`): `false`
when either side does not convert with `float()`, else numeric `>`. -/
def greatThanF (data value : PyVal) : Bool :=
  match pyFloatQ data, pyFloatQ value with
  | some a, some b => decide (a > b)
  | _, _ => false

/-- The local `less_than` predicate (bound as `lessThan`). -/
def lessThanF (data value : PyVal) : Bool :=
  match pyFloatQ data, pyFloatQ value with
  | some a, some b => decide (a < b)
  | _, _ => false

/-- Python truthiness, applied by the final `bool(eval_result)`. -/
def pyTruthy (v : PyVal) : Bool :=
  match v with
  | .null => false
  | .bool b => b
  | .int n => !(n == 0)
  | .float q => !(q == 0)
  | .str s => !(s == "")
  | .list l => !l.isEmpty
  | .dict d => !d.isEmpty
  | .builtin _ => true

/-- The body of `replace_result_ref` inside `evaluate_condition`: render
the resolved value as a literal for re-evaluation.  Dicts/lists render as
JSON text, strings as a `repr` literal, `None` as the token `None`,
booleans as `str(value)` (`True`/`False`), other scalars as `repr`. -/
def renderRef (result : PyVal) (path : String) : String :=
  match _get_nested_value result path with
  | .dict d => renderJson (.dict d)
  | .list l => renderJson (.list l)
  | .str s => pyRepr (.str s)
  | .null => "None"
  | .bool b => if b then "True" else "False"
  | v => pyRepr v

/-- `re.sub(r'result\.([a-zA-Z0-9_\[\].]+)', replace_result_ref,
condition)`: leftmost scan; at a position starting `result.` followed by
at least one path-class character, the longest path-class run is the
captured path, the whole match is replaced by `renderRef`, and scanning
resumes after it; otherwise the scan bumps along one character. -/
def replaceRefsChars (fuel : Nat) (result : PyVal) (cs : List Char) :
    List Char :=
  match fuel with
  | 0 => cs
  | n + 1 =>
    match cs with
    | 'r' :: 'e' :: 's' :: 'u' :: 'l' :: 't' :: '.' :: rest =>
      let path := rest.takeWhile isPathChar
      if path.isEmpty then
        'r' ::
          replaceRefsChars n result ('e' :: 's' :: 'u' :: 'l' :: 't' :: '.' :: rest)
      else
        (renderRef result (String.mk path)).toList ++
          replaceRefsChars n result (rest.dropWhile isPathChar)
    | c :: rest => c :: replaceRefsChars n result rest
    | [] => []

def replace_result_refs (result : PyVal) (condition : String) : String :=
  String.mk (replaceRefsChars (condition.length + 1) result condition.toList)

/-! ### The expression fragment that `eval` runs

`evaluate_condition` hands the substituted text to the host-language
interpreter: `eval(eval_condition, {"__builtins__": {}}, context)`.
`eval` parses and executes arbitrary Python expressions, far more than
the four predicates and `and`/`or`/`not`.  The fragment embedded here
covers everything the test conditions use — literals, the context names,
calls, `and`/`or`/`not`, parentheses — plus binary `+`, one
representative of the arbitrary extra computation `eval` accepts. -/

inductive PyTok where
  | lparen | rparen | comma | plus
  | lbrack | rbrack | lbrace | rbrace | colon
  | kwAnd | kwOr | kwNot | kwTrue | kwFalse | kwNone
  | intLit (n : Nat)
  | strLit (s : String)
  | ident (s : String)
deriving DecidableEq, Repr

/-- Python string-literal escapes (the subset that occurs; an unknown
escape keeps the backslash, as Python does). -/
def unescapeChar (d : Char) : List Char :=
  if d == 'n' then ['\n']
  else if d == 't' then ['\t']
  else if d == 'r' then ['\r']
  else if d == '\\' then ['\\']
  else if d == sqChar then [sqChar]
  else if d == '"' then ['"']
  else ['\\', d]

mutual
/-- The Python lexer, restricted to the fragment: whitespace,
punctuation, integer literals, string literals in either quote style,
identifiers and keywords.  Any other character is a `SyntaxError`. -/
def tokenizeAux (fuel : Nat) (cs : List Char) : Except String (List PyTok) :=
  match fuel with
  | 0 => .error "SyntaxError: input too long"
  | n + 1 =>
    match cs with
    | [] => .ok []
    | c :: rest =>
      if c.isWhitespace then tokenizeAux n rest
      else if c == '(' then (PyTok.lparen :: ·) <$> tokenizeAux n rest
      else if c == ')' then (PyTok.rparen :: ·) <$> tokenizeAux n rest
      else if c == ',' then (PyTok.comma :: ·) <$> tokenizeAux n rest
      else if c == '+' then (PyTok.plus :: ·) <$> tokenizeAux n rest
      else if c == '[' then (PyTok.lbrack :: ·) <$> tokenizeAux n rest
      else if c == ']' then (PyTok.rbrack :: ·) <$> tokenizeAux n rest
      else if c == lbraceChar then (PyTok.lbrace :: ·) <$> tokenizeAux n rest
      else if c == rbraceChar then (PyTok.rbrace :: ·) <$> tokenizeAux n rest
      else if c == ':' then (PyTok.colon :: ·) <$> tokenizeAux n rest
      else if c.isDigit then
        (PyTok.intLit (digitsVal (c :: rest.takeWhile Char.isDigit)) :: ·) <$>
          tokenizeAux n (rest.dropWhile Char.isDigit)
      else if isIdentChar c then
        let word := String.mk (c :: rest.takeWhile isIdentChar)
        let tok :=
          if word == "and" then PyTok.kwAnd
          else if word == "or" then PyTok.kwOr
          else if word == "not" then PyTok.kwNot
          else if word == "True" then PyTok.kwTrue
          else if word == "False" then PyTok.kwFalse
          else if word == "None" then PyTok.kwNone
          else PyTok.ident word
        (tok :: ·) <$> tokenizeAux n (rest.dropWhile isIdentChar)
      else if c == sqChar || c == '"' then tokenizeStr n c rest []
      else .error "SyntaxError: invalid character"

def tokenizeStr (fuel : Nat) (q : Char) (cs : List Char) (acc : List Char) :
    Except String (List PyTok) :=
  match fuel with
  | 0 => .error "SyntaxError: input too long"
  | n + 1 =>
    match cs with
    | [] => .error "SyntaxError: unterminated string literal"
    | c :: rest =>
      if c == q then
        (PyTok.strLit (String.mk acc.reverse) :: ·) <$> tokenizeAux n rest
      else if c == '\\' then
        match rest with
        | [] => .error "SyntaxError: unterminated string literal"
        | d :: rest2 => tokenizeStr n q rest2 ((unescapeChar d).reverse ++ acc)
      else tokenizeStr n q rest (c :: acc)
end

def tokenize (s : String) : Except String (List PyTok) :=
  tokenizeAux (s.length + 1) s.toList

/-- The Python expression fragment reachable from condition text:
literals, names, calls, the boolean combinators, and binary `+` as a
representative of the additional constructs `eval` executes. -/
inductive PyExpr where
  | lit (v : PyVal)
  | name (s : String)
  | call (f : String) (args : List PyExpr)
  | and_ (a b : PyExpr)
  | or_ (a b : PyExpr)
  | not_ (a : PyExpr)
  | add (a b : PyExpr)
  | listD (elems : List PyExpr)
  | dictD (entries : List (PyExpr × PyExpr))

mutual
/-- `or_test` (Python precedence: `or` < `and` < `not` < `+` < atom). -/
def parseOrE (fuel : Nat) (ts : List PyTok) :
    Except String (PyExpr × List PyTok) :=
  match fuel with
  | 0 => .error "SyntaxError: too deeply nested"
  | n + 1 => do
    let (e, ts) ← parseAndE n ts
    parseOrTail n e ts

def parseOrTail (fuel : Nat) (e : PyExpr) (ts : List PyTok) :
    Except String (PyExpr × List PyTok) :=
  match fuel with
  | 0 => .error "SyntaxError: too deeply nested"
  | n + 1 =>
    match ts with
    | PyTok.kwOr :: ts => do
      let (e2, ts) ← parseAndE n ts
      parseOrTail n (.or_ e e2) ts
    | _ => .ok (e, ts)

def parseAndE (fuel : Nat) (ts : List PyTok) :
    Except String (PyExpr × List PyTok) :=
  match fuel with
  | 0 => .error "SyntaxError: too deeply nested"
  | n + 1 => do
    let (e, ts) ← parseNotE n ts
    parseAndTail n e ts

def parseAndTail (fuel : Nat) (e : PyExpr) (ts : List PyTok) :
    Except String (PyExpr × List PyTok) :=
  match fuel with
  | 0 => .error "SyntaxError: too deeply nested"
  | n + 1 =>
    match ts with
    | PyTok.kwAnd :: ts => do
      let (e2, ts) ← parseNotE n ts
      parseAndTail n (.and_ e e2) ts
    | _ => .ok (e, ts)

def parseNotE (fuel : Nat) (ts : List PyTok) :
    Except String (PyExpr × List PyTok) :=
  match fuel with
  | 0 => .error "SyntaxError: too deeply nested"
  | n + 1 =>
    match ts with
    | PyTok.kwNot :: ts => do
      let (e, ts) ← parseNotE n ts
      .ok (.not_ e, ts)
    | _ => parseAddE n ts

def parseAddE (fuel : Nat) (ts : List PyTok) :
    Except String (PyExpr × List PyTok) :=
  match fuel with
  | 0 => .error "SyntaxError: too deeply nested"
  | n + 1 => do
    let (e, ts) ← parseAtomE n ts
    parseAddTail n e ts

def parseAddTail (fuel : Nat) (e : PyExpr) (ts : List PyTok) :
    Except String (PyExpr × List PyTok) :=
  match fuel with
  | 0 => .error "SyntaxError: too deeply nested"
  | n + 1 =>
    match ts with
    | PyTok.plus :: ts => do
      let (e2, ts) ← parseAtomE n ts
      parseAddTail n (.add e e2) ts
    | _ => .ok (e, ts)

def parseAtomE (fuel : Nat) (ts : List PyTok) :
    Except String (PyExpr × List PyTok) :=
  match fuel with
  | 0 => .error "SyntaxError: too deeply nested"
  | n + 1 =>
    match ts with
    | PyTok.intLit k :: ts => .ok (.lit (.int k), ts)
    | PyTok.strLit s :: ts => .ok (.lit (.str s), ts)
    | PyTok.kwTrue :: ts => .ok (.lit (.bool true), ts)
    | PyTok.kwFalse :: ts => .ok (.lit (.bool false), ts)
    | PyTok.kwNone :: ts => .ok (.lit PyVal.null, ts)
    | PyTok.ident f :: PyTok.lparen :: ts => parseArgsE n f [] ts
    | PyTok.ident s :: ts => .ok (.name s, ts)
    | PyTok.lparen :: ts => do
      let (e, ts) ← parseOrE n ts
      match ts with
      | PyTok.rparen :: ts => .ok (e, ts)
      | _ => .error "SyntaxError: expected closing parenthesis"
    | PyTok.lbrack :: ts => parseListE n [] ts
    | PyTok.lbrace :: ts => parseDictE n [] ts
    | _ => .error "SyntaxError: unexpected token"

def parseListE (fuel : Nat) (acc : List PyExpr) (ts : List PyTok) :
    Except String (PyExpr × List PyTok) :=
  match fuel with
  | 0 => .error "SyntaxError: too deeply nested"
  | n + 1 =>
    match ts with
    | PyTok.rbrack :: ts => .ok (.listD acc.reverse, ts)
    | _ => do
      let (e, ts) ← parseOrE n ts
      match ts with
      | PyTok.comma :: ts2 => parseListE n (e :: acc) ts2
      | PyTok.rbrack :: ts2 => .ok (.listD ((e :: acc).reverse), ts2)
      | _ => .error "SyntaxError: expected comma or closing bracket"

def parseDictE (fuel : Nat) (acc : List (PyExpr × PyExpr)) (ts : List PyTok) :
    Except String (PyExpr × List PyTok) :=
  match fuel with
  | 0 => .error "SyntaxError: too deeply nested"
  | n + 1 =>
    match ts with
    | PyTok.rbrace :: ts => .ok (.dictD acc.reverse, ts)
    | _ => do
      let (k, ts) ← parseOrE n ts
      match ts with
      | PyTok.colon :: ts2 => do
        let (v, ts3) ← parseOrE n ts2
        match ts3 with
        | PyTok.comma :: ts4 => parseDictE n ((k, v) :: acc) ts4
        | PyTok.rbrace :: ts4 => .ok (.dictD (((k, v) :: acc).reverse), ts4)
        | _ => .error "SyntaxError: expected comma or closing brace"
      | _ => .error "SyntaxError: expected colon"

def parseArgsE (fuel : Nat) (f : String) (acc : List PyExpr)
    (ts : List PyTok) : Except String (PyExpr × List PyTok) :=
  match fuel with
  | 0 => .error "SyntaxError: too deeply nested"
  | n + 1 =>
    match ts with
    | PyTok.rparen :: ts => .ok (.call f acc.reverse, ts)
    | _ => do
      let (e, ts) ← parseOrE n ts
      match ts with
      | PyTok.comma :: ts2 => parseArgsE n f (e :: acc) ts2
      | PyTok.rparen :: ts2 => .ok (.call f ((e :: acc).reverse), ts2)
      | _ => .error "SyntaxError: expected comma or closing parenthesis"
end

/-- Parse a complete condition expression: the whole token stream must
be consumed (Python `eval` rejects trailing tokens). -/
def parseCond (ts : List PyTok) : Except String PyExpr := do
  let (e, rest) ← parseOrE (8 * (ts.length + 1)) ts
  match rest with
  | [] => .ok e
  | _ => .error "SyntaxError: unexpected trailing input"

/-- Name lookup against the closed context dict that
`evaluate_condition` passes to `eval` (builtins emptied). -/
def lookupName (result : PyVal) (s : String) : Except String PyVal :=
  if s == "contains" || s == "equal" || s == "greatThan" || s == "lessThan" then
    .ok (.builtin s)
  else if s == "result" then .ok result
  else if s == "true" then .ok (.bool true)
  else if s == "false" then .ok (.bool false)
  else if s == "null" then .ok PyVal.null
  else .error ("NameError: name " ++ s ++ " is not defined")

/-- Calling one of the four context functions (any other callee, or a
wrong argument count, is a `TypeError`). -/
def applyBuiltin (f : String) (args : List PyVal) : Except String PyVal :=
  match f, args with
  | "contains", [a, b] => .ok (.bool (containsF a b))
  | "equal", [a, b] => .ok (.bool (equalF a b))
  | "greatThan", [a, b] => .ok (.bool (greatThanF a b))
  | "lessThan", [a, b] => .ok (.bool (lessThanF a b))
  | _, _ => .error "TypeError: wrong number of arguments"

/-- Integer view for Python `+` (`bool` is an `int` subtype). -/
def pyIntZ (v : PyVal) : Option ℤ :=
  match v with
  | .bool b => some (if b then 1 else 0)
  | .int n => some n
  | _ => Option.none

/-- Python binary `+` on the values of the fragment. -/
def pyAdd (a b : PyVal) : Except String PyVal :=
  match pyIntZ a, pyIntZ b with
  | some x, some y => .ok (.int (x + y))
  | _, _ =>
    match a, b with
    | .str s, .str t => .ok (.str (s ++ t))
    | .list l, .list m => .ok (.list (l ++ m))
    | _, _ =>
      match pyNumQ a, pyNumQ b with
      | some x, some y => .ok (.float (x + y))
      | _, _ => .error "TypeError: unsupported operand types for +"

mutual
/-- Evaluation of the fragment exactly as Python `eval` runs it against
the closed context: `and`/`or` short-circuit and return an operand,
`not` returns a bool, a call evaluates callee then arguments. -/
def pyEval (result : PyVal) : PyExpr → Except String PyVal
  | .lit v => .ok v
  | .name s => lookupName result s
  | .call f args => do
    let fv ← lookupName result f
    let vs ← pyEvalList result args
    match fv with
    | .builtin fname => applyBuiltin fname vs
    | _ => .error "TypeError: object is not callable"
  | .and_ a b => do
    let va ← pyEval result a
    if pyTruthy va then pyEval result b else .ok va
  | .or_ a b => do
    let va ← pyEval result a
    if pyTruthy va then .ok va else pyEval result b
  | .not_ a => do
    let va ← pyEval result a
    .ok (.bool (!pyTruthy va))
  | .add a b => do
    let va ← pyEval result a
    let vb ← pyEval result b
    pyAdd va vb
  | .listD elems => do
    let vs ← pyEvalList result elems
    .ok (.list vs)
  | .dictD entries => do
    let kvs ← pyEvalPairs result entries
    .ok (.dict kvs)

def pyEvalList (result : PyVal) : List PyExpr → Except String (List PyVal)
  | [] => .ok []
  | e :: es => do
    let v ← pyEval result e
    let vs ← pyEvalList result es
    .ok (v :: vs)

/-- Dict displays: every key occurring here is a string literal (they
come from `json.dumps` output); a non-string key is out of the fragment. -/
def pyEvalPairs (result : PyVal) :
    List (PyExpr × PyExpr) → Except String (List (String × PyVal))
  | [] => .ok []
  | (ke, ve) :: es => do
    let kv ← pyEval result ke
    let vv ← pyEval result ve
    let rest ← pyEvalPairs result es
    match kv with
    | .str k => .ok ((k, vv) :: rest)
    | _ => .error "unsupported dict key"
end

/-- The guarded pipeline inside `evaluate_condition`'s `try` block:
substitute `result.<path>` references, then lex, parse and evaluate with
the host interpreter.  Any exception surfaces as `.error`. -/
def condPipeline (env : List (String × String)) (condition : String)
    (result : PyVal) : Except String PyVal := do
  let c := replace_result_refs result (replace_env_vars env condition)
  let ts ← tokenize c
  let e ← parseCond ts
  pyEval result e

/-- `Validator.evaluate_condition` (`src/validators.py` lines 120–221):
a missing (`pd.isna`) or empty condition is vacuously true; otherwise
environment variables are substituted, `result.<path>` references are
replaced by literal renderings, the text is evaluated by the host
interpreter, the outcome is passed through `bool(...)`, and any
exception is caught and turned into `False`. -/
def evaluate_condition (env : List (String × String)) (condition : String)
    (result : PyVal) : Bool :=
  if condition == "" then true
  else
    match condPipeline env condition result with
    | .error _ => false
    | .ok v => pyTruthy v

/-- One position of `re.search` for the action pattern
`\$([a-zA-Z0-9_]+)\s*=\s*result\.([a-zA-Z0-9_\[\].]+)`: an anchored
attempt to match at the start of `cs`.  (Greedy runs are deterministic
here: the identifier class, whitespace and `=` are pairwise disjoint.) -/
def matchActionAt (cs : List Char) : Option (String × String) :=
  match cs with
  | '$' :: rest =>
    let name := rest.takeWhile isIdentChar
    if name.isEmpty then Option.none
    else
      match (rest.dropWhile isIdentChar).dropWhile Char.isWhitespace with
      | '=' :: r3 =>
        match r3.dropWhile Char.isWhitespace with
        | 'r' :: 'e' :: 's' :: 'u' :: 'l' :: 't' :: '.' :: r5 =>
          let path := r5.takeWhile isPathChar
          if path.isEmpty then Option.none
          else some (String.mk name, String.mk path)
        | _ => Option.none
      | _ => Option.none
  | _ => Option.none

/-- `pattern.search(single_action)`: leftmost position where the action
pattern matches. -/
def searchAction (cs : List Char) : Option (String × String) :=
  match cs with
  | [] => Option.none
  | _ :: rest =>
    match matchActionAt cs with
    | some r => some r
    | Option.none => searchAction rest

/-- One assignment statement of `Validator.execute_action`: if the
pattern matches, resolve the path; `if value is not None`, serialize
(dicts/lists as JSON text, booleans as `str(value).lower()`, other
scalars as `str(value)`) and bind; otherwise leave the store untouched.
The source's `elif value is None: value_str = "null"` branch sits inside
`if value is not None` and is dead code: a path that resolves to JSON
null is indistinguishable from a failed resolution and is skipped. -/
def execSingleAction (result : PyVal) (env : List (String × String))
    (act : String) : List (String × String) :=
  match searchAction act.toList with
  | Option.none => env
  | some (name, path) =>
    match _get_nested_value result path with
    | .null => env
    | v =>
      let valueStr :=
        match v with
        | .dict _ => renderJson v
        | .list _ => renderJson v
        | .bool b => if b then "true" else "false"
        | _ => pyStr v
      updateEnv env name valueStr

/-- `Validator.execute_action` (`src/validators.py` lines 239–268):
split on `;`/newline, strip, drop empties, then run each assignment in
order against the shared environment store. -/
def execute_action (env : List (String × String)) (action : String)
    (result : PyVal) : List (String × String) :=
  if action == "" then env
  else
    let actions :=
      (((splitOnPred (fun c => c == ';' || c == '\n') action.toList).map
            (fun cs => pyStrip (String.mk cs))).filter
        (fun a => !(a == "")))
    actions.foldl (execSingleAction result) env

/-! ### Strict JSON parsing (`json.loads`)

A fuel-indexed recursive-descent parser for the JSON accepted by
`json.loads` on the inputs the runner sees: objects, arrays,
double-quoted strings (common escapes), integers and decimal fractions,
`true`/`false`/`null`.  Exponent forms, `\u` escapes and the
leading-zero restriction are outside the inputs exercised here. -/

def jsonWs (cs : List Char) : List Char :=
  cs.dropWhile (fun c => c == ' ' || c == '\t' || c == '\n' || c == '\r')

def jsonUnescape (d : Char) : Option Char :=
  if d == '"' then some '"'
  else if d == '\\' then some '\\'
  else if d == '/' then some '/'
  else if d == 'n' then some '\n'
  else if d == 't' then some '\t'
  else if d == 'r' then some '\r'
  else if d == 'b' then some (Char.ofNat 8)
  else if d == 'f' then some (Char.ofNat 12)
  else Option.none

/-- Scan a JSON string body after the opening quote. -/
def jsonStrAux (fuel : Nat) (cs : List Char) (acc : List Char) :
    Except String (String × List Char) :=
  match fuel with
  | 0 => .error "JSONDecodeError: input too long"
  | n + 1 =>
    match cs with
    | [] => .error "JSONDecodeError: unterminated string"
    | c :: rest =>
      if c == '"' then .ok (String.mk acc.reverse, rest)
      else if c == '\\' then
        match rest with
        | [] => .error "JSONDecodeError: unterminated string"
        | d :: rest2 =>
          match jsonUnescape d with
          | some u => jsonStrAux n rest2 (u :: acc)
          | Option.none => .error "JSONDecodeError: invalid escape"
      else jsonStrAux n rest (c :: acc)

/-- Scan a JSON number (integer or decimal fraction). -/
def jsonNum (cs : List Char) : Except String (PyVal × List Char) :=
  let (neg, cs') :=
    match cs with
    | '-' :: r => (true, r)
    | _ => (false, cs)
  let intPart := cs'.takeWhile Char.isDigit
  if intPart.isEmpty then .error "JSONDecodeError: expecting value"
  else
    match cs'.dropWhile Char.isDigit with
    | '.' :: afterDot =>
      let frac := afterDot.takeWhile Char.isDigit
      if frac.isEmpty then .error "JSONDecodeError: expecting digits"
      else
        let q : ℚ :=
          (digitsVal intPart : ℚ) + (digitsVal frac : ℚ) / (10 : ℚ) ^ frac.length
        .ok (.float (if neg then -q else q), afterDot.dropWhile Char.isDigit)
    | rest =>
      let n : ℤ := (digitsVal intPart : ℤ)
      .ok (.int (if neg then -n else n), rest)

mutual
def jsonVal (fuel : Nat) (cs : List Char) :
    Except String (PyVal × List Char) :=
  match fuel with
  | 0 => .error "JSONDecodeError: too deeply nested"
  | n + 1 =>
    match jsonWs cs with
    | 'n' :: 'u' :: 'l' :: 'l' :: rest => .ok (PyVal.null, rest)
    | 't' :: 'r' :: 'u' :: 'e' :: rest => .ok (.bool true, rest)
    | 'f' :: 'a' :: 'l' :: 's' :: 'e' :: rest => .ok (.bool false, rest)
    | '"' :: rest => do
      let (s, r) ← jsonStrAux (rest.length + 1) rest []
      .ok (.str s, r)
    | '[' :: rest =>
      (match jsonWs rest with
       | ']' :: r => .ok (.list [], r)
       | _ => jsonItems n [] rest)
    | c :: rest =>
      if c == lbraceChar then
        match jsonWs rest with
        | r' =>
          match r' with
          | d :: r2 =>
            if d == rbraceChar then .ok (.dict [], r2)
            else jsonPairs n [] rest
          | [] => .error "JSONDecodeError: unterminated object"
      else jsonNum (c :: rest)
    | [] => .error "JSONDecodeError: expecting value"

def jsonItems (fuel : Nat) (acc : List PyVal) (cs : List Char) :
    Except String (PyVal × List Char) :=
  match fuel with
  | 0 => .error "JSONDecodeError: too deeply nested"
  | n + 1 => do
    let (v, r) ← jsonVal n cs
    match jsonWs r with
    | ',' :: r2 => jsonItems n (v :: acc) r2
    | ']' :: r2 => .ok (.list ((v :: acc).reverse), r2)
    | _ => .error "JSONDecodeError: expecting comma or closing bracket"

def jsonPairs (fuel : Nat) (acc : List (String × PyVal)) (cs : List Char) :
    Except String (PyVal × List Char) :=
  match fuel with
  | 0 => .error "JSONDecodeError: too deeply nested"
  | n + 1 =>
    match jsonWs cs with
    | '"' :: rest => do
      let (k, r) ← jsonStrAux (rest.length + 1) rest []
      match jsonWs r with
      | ':' :: r2 => do
        let (v, r3) ← jsonVal n r2
        match jsonWs r3 with
        | ',' :: r4 => jsonPairs n ((k, v) :: acc) r4
        | r4 =>
          match r4 with
          | d :: r5 =>
            if d == rbraceChar then .ok (.dict (((k, v) :: acc).reverse), r5)
            else .error "JSONDecodeError: expecting comma or closing brace"
          | [] => .error "JSONDecodeError: unterminated object"
      | _ => .error "JSONDecodeError: expecting colon"
    | _ => .error "JSONDecodeError: expecting property name"
end

/-- `json.loads`: parse one value; trailing non-whitespace is the
`Extra data` error. -/
def jsonParse (s : String) : Except String PyVal := do
  let (v, rest) ← jsonVal (2 * s.length + 8) s.toList
  match jsonWs rest with
  | [] => .ok v
  | _ => .error "JSONDecodeError: extra data"

/-- Python `str.strip("'\" ")`: drop quote/space characters from both
ends. -/
def stripQuoteSpace (cs : List Char) : List Char :=
  let p : Char → Bool := fun c => c == sqChar || c == '"' || c == ' '
  ((cs.dropWhile p).reverse.dropWhile p).reverse

/-- Python `str.split(sep, 1)`: split at the first occurrence only. -/
def splitFirst (sep : Char) (cs : List Char) : Option (List Char × List Char) :=
  match cs with
  | [] => Option.none
  | c :: rest =>
    if c == sep then some ([], rest)
    else (splitFirst sep rest).map (fun p => (c :: p.1, p.2))

/-- Lazy scan for the body of one `\{(.*?)\}` match: everything up to
the first closing brace; `.` does not cross a newline, so a newline
before the closing brace fails the attempt. -/
def braceScan (acc : List Char) (cs : List Char) :
    Option (List Char × List Char) :=
  match cs with
  | [] => Option.none
  | c :: r =>
    if c == rbraceChar then some (acc.reverse, r)
    else if c == '\n' then Option.none
    else braceScan (c :: acc) r

/-- `re.findall(r'\{(.*?)\}', text)`: leftmost lazy matches; a failed
attempt bumps along one character. -/
def findallBraces (fuel : Nat) (cs : List Char) : List (List Char) :=
  match fuel with
  | 0 => []
  | n + 1 =>
    match cs with
    | [] => []
    | c :: rest =>
      if c == lbraceChar then
        match braceScan [] rest with
        | some (content, r) => content :: findallBraces n r
        | Option.none => findallBraces n rest
      else findallBraces n rest

/-- One fallback item of `parse_dict_list`: split on the first comma
(two parts become a key/value pair); otherwise split on the first colon. -/
def fallbackItem (d : List (String × PyVal)) (item : List Char) :
    List (String × PyVal) :=
  let itemS := pyStrip (String.mk item)
  if itemS == "" then d
  else
    match splitFirst ',' itemS.toList with
    | some (a, b) =>
      updateDict d (String.mk (stripQuoteSpace a))
        (.str (String.mk (stripQuoteSpace b)))
    | Option.none =>
      match splitFirst ':' itemS.toList with
      | some (a, b) =>
        updateDict d (String.mk (stripQuoteSpace a))
          (.str (String.mk (stripQuoteSpace b)))
      | Option.none => d

/-- The `except json.JSONDecodeError` fallback tier of
`parse_dict_list`: find each brace group in the (env-substituted,
un-normalized) text and recover one key/value pair per group. -/
def fallbackParse (text : String) : List (String × PyVal) :=
  (findallBraces (text.length + 1) text.toList).foldl fallbackItem []

/-- Merge a parsed JSON list into one dict, `result_dict.update(item)`
per dict element (non-dict elements are skipped). -/
def mergeItems (items : List PyVal) : List (String × PyVal) :=
  items.foldl
    (fun acc item =>
      match item with
      | .dict kvs => kvs.foldl (fun d kv => updateDict d kv.1 kv.2) acc
      | _ => acc)
    []

/-- `RequestParser.parse_dict_list` (`src/parsers.py` lines 30–78):
empty/missing cell gives an empty dict; otherwise substitute environment
variables, normalize single quotes to double quotes, strip, and attempt
`json.loads`.  A JSON list of dicts is merged into one dict (later
entries overwrite earlier ones); a JSON dict is taken as-is; any other
JSON value gives an empty dict; a JSON parse failure falls back to the
brace-group recovery tier, which never raises. -/
def parse_dict_list (env : List (String × String)) (text : String) :
    List (String × PyVal) :=
  if text == "" then []
  else
    let text := replace_env_vars env text
    let jsonString :=
      String.mk ((pyStrip text).toList.map (fun c => if c == sqChar then '"' else c))
    match jsonParse jsonString with
    | .ok (.list items) => mergeItems items
    | .ok (.dict d) => d
    | .ok _ => []
    | .error _ => fallbackParse text

/-- `RequestParser.parse_json_body` (`src/parsers.py` lines 80–93):
empty/missing cell gives `None`; otherwise substitute environment
variables and attempt `json.loads` on the text as-is — no single-quote
normalization — returning `None` on a parse failure.  (The source
returns the Python value `None` both for "no body" and for a failed
parse, and `json.loads("null")` also yields `None`; `PyVal.null` models
all three.) -/
def parse_json_body (env : List (String × String)) (bodyText : String) :
    PyVal :=
  if bodyText == "" then PyVal.null
  else
    match jsonParse (replace_env_vars env bodyText) with
    | .ok v => v
    | .error _ => PyVal.null

/-! ### Cycle aggregation (`src/framework.py`, `_aggregate_cycle_results`) -/

/-- One per-run result, as read by the aggregator: the `status` field
and the `elapsed_time_ms` field when it is numeric
(`isinstance(elapsed_time, (int, float))`). -/
structure RunResult where
  status : String
  elapsed : Option ℚ

/-- The aggregated fields the claims concern (times in milliseconds;
`Option.none` models the initial Python `None` that is left in place
when there are no numeric samples). -/
structure AggResult where
  cycles_run : ℕ
  passed_count : ℕ
  failed_count : ℕ
  error_count : ℕ
  skipped_count : ℕ
  min_time_ms : Option ℚ
  max_time_ms : Option ℚ
  avg_time_ms : Option ℚ
  median_time_ms : Option ℚ
  last_status : String
  status : String

/-- The collected `response_times` list. -/
def responseTimes (cycleData : List RunResult) : List ℚ :=
  cycleData.filterMap (fun r => r.elapsed)

def listMinQ : List ℚ → Option ℚ
  | [] => Option.none
  | x :: xs => some (xs.foldl min x)

def listMaxQ : List ℚ → Option ℚ
  | [] => Option.none
  | x :: xs => some (xs.foldl max x)

/-- Insertion sort (ascending), standing in for the sort inside
`statistics.median`. -/
def insertSorted (x : ℚ) : List ℚ → List ℚ
  | [] => [x]
  | y :: ys => if x ≤ y then x :: y :: ys else y :: insertSorted x ys

def sortQ (l : List ℚ) : List ℚ :=
  l.foldr insertSorted []

/-- `statistics.median`: middle element of the sorted data for odd
length, mean of the two middle elements for even length. -/
def medianQ (l : List ℚ) : Option ℚ :=
  match l with
  | [] => Option.none
  | _ =>
    let s := sortQ l
    let n := l.length
    if n % 2 == 1 then some (s.getD (n / 2) 0)
    else some ((s.getD (n / 2 - 1) 0 + s.getD (n / 2) 0) / 2)

/-- Arithmetic mean `sum(response_times) / len(response_times)`. -/
def meanQ (l : List ℚ) : Option ℚ :=
  match l with
  | [] => Option.none
  | _ => some (l.sum / l.length)

/-- The sample variance underlying `statistics.stdev`:
`sum((x - mean)^2) / (n - 1)` (only applied at `n ≥ 2`). -/
def sampleVarQ (l : List ℚ) : ℚ :=
  let m := l.sum / l.length
  (l.map (fun x => (x - m) ^ 2)).sum / ((l.length - 1 : ℕ) : ℚ)

/-- The status tallies of `_aggregate_cycle_results`. -/
def countStatus (cycleData : List RunResult) (s : String) : ℕ :=
  cycleData.countP (fun r => r.status == s)

/-- `_aggregate_cycle_results` (`src/framework.py` lines 274–338),
restricted to one test case's cycle list: status tallies, the time
statistics when at least one numeric sample exists (left `None`
otherwise), last observed status, and the overall-status precedence
Error > Failed > Passed > Skipped.  The standard deviation needs the
real square root and is modelled separately as `stdDevMs`. -/
def _aggregate_cycle_results (cycleData : List RunResult) : AggResult :=
  let times := responseTimes cycleData
  let passed := countStatus cycleData "Passed"
  let failed := countStatus cycleData "Failed"
  let errs := countStatus cycleData "Error"
  let skipped := countStatus cycleData "Skipped"
  { cycles_run := cycleData.length
    passed_count := passed
    failed_count := failed
    error_count := errs
    skipped_count := skipped
    min_time_ms := listMinQ times
    max_time_ms := listMaxQ times
    avg_time_ms := meanQ times
    median_time_ms := medianQ times
    last_status := (cycleData.getLast?.map (fun r => r.status)).getD "Unknown"
    status :=
      if errs > 0 then "Error"
      else if failed > 0 then "Failed"
      else if passed > 0 then "Passed"
      else "Skipped" }

/-- The `std_dev_ms` field: `None` with no samples, `0` with exactly one
sample, `statistics.stdev(response_times)` (the square root of the
sample variance) otherwise. -/
noncomputable def stdDevMs (cycleData : List RunResult) : Option ℝ :=
  match responseTimes cycleData with
  | [] => Option.none
  | [_] => some 0
  | ts => some (Real.sqrt (sampleVarQ ts : ℚ))

/-! ### Definitions written from the specification's words

These do not embed source code; each exists to be compared against the
source-embedded definition above, for the claims that assert the source
meets them. -/

mutual
/-- Modelled from the spec ("arguments are either literal values or
`result.<path>` references"): an admissible argument of one of the four
predicates, after `result.<path>` references have been substituted by
literal renderings. -/
def isAllowedArg : PyExpr → Bool
  | .lit _ => true
  | .name s => s == "true" || s == "false" || s == "null" || s == "result"
  | .listD elems => isAllowedArgList elems
  | .dictD entries => isAllowedArgPairs entries
  | _ => false

def isAllowedArgList : List PyExpr → Bool
  | [] => true
  | e :: es => isAllowedArg e && isAllowedArgList es

def isAllowedArgPairs : List (PyExpr × PyExpr) → Bool
  | [] => true
  | (k, v) :: es => isAllowedArg k && isAllowedArg v && isAllowedArgPairs es
end

/-- Modelled from the spec ("a string combining zero or more calls to
four fixed predicates … joined by logical `and`/`or`/`not`"): the closed
expression grammar the spec permits the evaluator to execute.  Anything
outside it — arithmetic, say — is "arbitrary code reachable from the
expression text". -/
def isAllowedExpr : PyExpr → Bool
  | .lit _ => true
  | .name s => isAllowedArg (.name s)
  | .listD elems => isAllowedArg (.listD elems)
  | .dictD entries => isAllowedArg (.dictD entries)
  | .call f args =>
    (f == "contains" || f == "equal" || f == "greatThan" || f == "lessThan") &&
      isAllowedArgList args
  | .and_ a b => isAllowedExpr a && isAllowedExpr b
  | .or_ a b => isAllowedExpr a && isAllowedExpr b
  | .not_ a => isAllowedExpr a
  | .add _ _ => false

mutual
/-- Structural equality on `PyVal` (no Python coercions). -/
def pyBeq : PyVal → PyVal → Bool
  | .null, .null => true
  | .bool a, .bool b => a == b
  | .int a, .int b => a == b
  | .float a, .float b => a == b
  | .str a, .str b => a == b
  | .list a, .list b => pyBeqList a b
  | .dict a, .dict b => pyBeqDict a b
  | .builtin a, .builtin b => a == b
  | _, _ => false

def pyBeqList : List PyVal → List PyVal → Bool
  | [], [] => true
  | a :: as, b :: bs => pyBeq a b && pyBeqList as bs
  | _, _ => false

def pyBeqDict : List (String × PyVal) → List (String × PyVal) → Bool
  | [], [] => true
  | (k, v) :: as, (k', v') :: bs => k == k' && pyBeq v v' && pyBeqDict as bs
  | _, _ => false
end

mutual
/-- Modelled from the spec ("structural equality after normalizing
numeric and string representations"): map every number to its rational
value and every numeric string to the same, recursively. -/
def specNormalize : PyVal → PyVal
  | .int n => .float (n : ℚ)
  | .str s =>
    (match parseFloatQ s with
     | some q => .float q
     | Option.none => .str s)
  | .list l => .list (specNormalizeList l)
  | .dict d => .dict (specNormalizeDict d)
  | v => v

def specNormalizeList : List PyVal → List PyVal
  | [] => []
  | v :: rest => specNormalize v :: specNormalizeList rest

def specNormalizeDict : List (String × PyVal) → List (String × PyVal)
  | [] => []
  | (k, v) :: rest => (k, specNormalize v) :: specNormalizeDict rest
end

/-- Modelled from the spec: the `equal` predicate as §4.4 describes it —
structural equality after normalizing numeric and string
representations. -/
def specEqual (a b : PyVal) : Bool :=
  pyBeq (specNormalize a) (specNormalize b)

/-- Modelled from the spec ("for header/query maps and for request
bodies alike … strict JSON parse after normalizing single quotes to
double quotes"): the body parser as the claim describes it, quote
normalization included. -/
def specParseJsonBodyNormalized (env : List (String × String))
    (bodyText : String) : PyVal :=
  if bodyText == "" then PyVal.null
  else
    let text := replace_env_vars env bodyText
    let normalized :=
      String.mk ((pyStrip text).toList.map (fun c => if c == sqChar then '"' else c))
    match jsonParse normalized with
    | .ok v => v
    | .error _ => PyVal.null

/-! ## Theorems settling the claims -/

/-- Shared helper: the segment regex accepts `name[idx]` built from a
nonempty identifier run and a nonempty digit run. -/
theorem parseIndexSeg_mk_index (kcs ds : List Char)
    (hk : kcs ≠ []) (hka : ∀ c ∈ kcs, isIdentChar c = true)
    (hd : ds ≠ []) (hda : ∀ c ∈ ds, c.isDigit = true) :
    parseIndexSeg (String.mk (kcs ++ '[' :: (ds ++ [']']))) =
      some (String.mk kcs, digitsVal ds) := by
  have htl : (String.mk (kcs ++ '[' :: (ds ++ [']']))).toList
      = kcs ++ '[' :: (ds ++ [']']) := rfl
  unfold parseIndexSeg
  rw [htl]
  rw [List.takeWhile_append_of_pos hka, List.dropWhile_append_of_pos hka]
  rw [List.takeWhile_cons_of_neg (by decide), List.dropWhile_cons_of_neg (by decide)]
  simp only [List.append_nil]
  rw [if_neg (by simpa using hk)]
  rw [List.takeWhile_append_of_pos hda, List.dropWhile_append_of_pos hda]
  rw [show List.takeWhile Char.isDigit [']'] = [] from rfl,
      show List.dropWhile Char.isDigit [']'] = [']'] from rfl]
  simp only [List.append_nil]
  rw [if_neg (by simpa using hd)]

/-- Shared helper: the segment regex rejects a plain identifier run (no
bracket suffix). -/
theorem parseIndexSeg_mk_plain (kcs : List Char)
    (hk : kcs ≠ []) (hka : ∀ c ∈ kcs, isIdentChar c = true) :
    parseIndexSeg (String.mk kcs) = Option.none := by
  have hdw : List.dropWhile isIdentChar kcs = [] :=
    List.dropWhile_eq_nil_iff.mpr hka
  have htw : List.takeWhile isIdentChar kcs = kcs :=
    List.takeWhile_eq_self_iff.mpr hka
  unfold parseIndexSeg
  rw [show (String.mk kcs).toList = kcs from rfl, htw, hdw]
  rw [if_neg (by simpa using hk)]

/-- C1: the claim states that evaluating a condition executes only the
four fixed predicates and the boolean combinators.  The source instead
hands the text to the host interpreter (`eval` with emptied builtins),
which executes arbitrary expression code: the condition text `2 + 3`
lexes and parses to an addition node, which lies outside the allowed
grammar (`isAllowedExpr` is false on it), yet the evaluator executes the
addition, producing `5`, and the condition passes as truthy. -/
theorem c1_eval_executes_beyond_predicates :
    tokenize "2 + 3" = .ok [PyTok.intLit 2, PyTok.plus, PyTok.intLit 3] ∧
    parseCond [PyTok.intLit 2, PyTok.plus, PyTok.intLit 3] =
      .ok (PyExpr.add (.lit (.int 2)) (.lit (.int 3))) ∧
    isAllowedExpr (PyExpr.add (.lit (.int 2)) (.lit (.int 3))) = false ∧
    pyEval (PyVal.dict []) (PyExpr.add (.lit (.int 2)) (.lit (.int 3))) =
      .ok (PyVal.int 5) ∧
    evaluate_condition [] "2 + 3" (PyVal.dict []) = true :=
  ⟨rfl, rfl, rfl, rfl, rfl⟩

/-- C2: a missing (modelled as empty) condition is vacuously true; any
failure of the substitution/lex/parse/evaluate pipeline is caught and
yields `false` rather than an escaping error, as witnessed on a
malformed expression, an undefined name, a wrong arity, and a
type-mismatched numeric comparison (the last returns `false` from
inside the predicate, no error at all). -/
theorem c2_evaluation_failures_contained :
    (∀ (env : List (String × String)) (r : PyVal),
        evaluate_condition env "" r = true) ∧
    (∀ (env : List (String × String)) (c : String) (r : PyVal),
        (c == "") = false → (condPipeline env c r).isOk = false →
          evaluate_condition env c r = false) ∧
    evaluate_condition [] "equal(" (PyVal.dict []) = false ∧
    evaluate_condition [] "undefinedName" (PyVal.dict []) = false ∧
    evaluate_condition [] "contains(1)" (PyVal.dict []) = false ∧
    evaluate_condition [] "greatThan(\x27abc\x27, 1)" (PyVal.dict []) = false := by
  refine ⟨fun env r => rfl, fun env c r hc hp => ?_, rfl, rfl, rfl, rfl⟩
  unfold evaluate_condition
  rw [if_neg (by simp_all)]
  cases h : condPipeline env c r with
  | error e => rfl
  | ok v => rw [h] at hp; simp [Except.isOk, Except.toBool] at hp

/-- C2 witness: the second conjunct applied at the concrete malformed
condition `equal(`. -/
theorem c2_evaluation_failures_contained_witness :
    evaluate_condition [] "equal(" (PyVal.dict []) = false :=
  c2_evaluation_failures_contained.2.1 [] "equal(" (PyVal.dict []) rfl rfl

/-- C3 counterexample: the claim says `equal` compares after
normalizing numeric and string representations, deciding `equal(5, "5")`
under that policy.  The source's `equal` is plain host-language `==`,
which performs no such normalization: `equal(5, "5")` is `false`, while
the spec-modelled normalizing equality makes the same pair equal. -/
theorem c3_equal_does_not_normalize_counterexample :
    equalF (PyVal.int 5) (PyVal.str "5") = false ∧
    specEqual (PyVal.int 5) (PyVal.str "5") = true :=
  ⟨rfl, rfl⟩

/-- C3 amended: `equal(a, b)` is host-language equality, which is
type-sensitive — integers compare equal exactly when equal as numbers
(and numerically across int/float and bool), strings exactly when equal
as strings, and a number never equals a string; in particular
`equal(5, "5")` is `false`. -/
theorem c3_equal_is_host_equality :
    (∀ m n : ℤ, equalF (.int m) (.int n) = true ↔ m = n) ∧
    (∀ (m : ℤ) (s : String), equalF (.int m) (.str s) = false) ∧
    (∀ s t : String, equalF (.str s) (.str t) = true ↔ s = t) ∧
    (∀ m : ℤ, equalF (.int m) (.float (m : ℚ)) = true) ∧
    equalF (.bool true) (.int 1) = true ∧
    equalF (PyVal.int 5) (PyVal.str "5") = false := by
  refine ⟨fun m n => ?_, fun m s => ?_, fun s t => ?_, fun m => ?_, rfl, rfl⟩
  · simp [equalF, pyEq, pyNumQ]
  · simp [equalF, pyEq, pyNumQ]
  · simp [equalF, pyEq]
  · simp [equalF, pyEq, pyNumQ]

/-- C5 counterexample: the claim says an absent path stringifies to the
token `null`.  The source's `replace_result_ref` renders the `None` it
gets back from `_get_nested_value` as the Python token `None`, not
`null`: the reference `result.items[5]` against a 3-element `items`
array substitutes as `None`. -/
theorem c5_absent_renders_None_counterexample :
    renderRef (PyVal.dict [("items", PyVal.list
        [PyVal.int 1, PyVal.int 2, PyVal.int 3])]) "items[5]" = "None" ∧
    "None" ≠ "null" :=
  ⟨rfl, by decide⟩

/-- C5 amended: an absent path stringifies to the token `None`, which
the evaluation context maps to the same value as `null`, so the
`equal(result.<path>, null)` idiom still evaluates to true: against
`\x7b"items": [1, 2, 3]\x7d`, the condition text becomes
`equal(None, null)` and the whole condition evaluates to `true`. -/
theorem c5_absent_compares_equal_to_null :
    replace_result_refs
        (PyVal.dict [("items", PyVal.list
          [PyVal.int 1, PyVal.int 2, PyVal.int 3])])
        "equal(result.items[5], null)" = "equal(None, null)" ∧
    evaluate_condition [] "equal(result.items[5], null)"
        (PyVal.dict [("items", PyVal.list
          [PyVal.int 1, PyVal.int 2, PyVal.int 3])]) = true :=
  ⟨rfl, rfl⟩

/-- C7 counterexample: the claim says the body parser, like the
header/query parser, attempts strict JSON after normalizing single
quotes to double quotes.  `parse_json_body` performs no quote
normalization: on `\x7b'a': 1\x7d` it fails and returns `None`, while
the spec-modelled normalizing body parser succeeds. -/
theorem c7_body_parser_no_quote_normalization_counterexample :
    parse_json_body [] "\x7b\x27a\x27: 1\x7d" = PyVal.null ∧
    specParseJsonBodyNormalized [] "\x7b\x27a\x27: 1\x7d" =
      PyVal.dict [("a", PyVal.int 1)] ∧
    parse_json_body [] "\x7b\x27a\x27: 1\x7d" ≠
      specParseJsonBodyNormalized [] "\x7b\x27a\x27: 1\x7d" :=
  ⟨rfl, rfl, fun h => nomatch h⟩

/-- C7 amended: the header/query-map parser normalizes single quotes to
double quotes before its strict JSON attempt and never raises (garbage
input yields an empty map); the body parser attempts strict JSON with no
quote normalization and never raises (single-quoted or empty input
yields `None`, valid JSON parses). -/
theorem c7_literal_parsers_behaviour :
    parse_dict_list []
        "[\x7b\x27Content-Type\x27: \x27application/json\x27\x7d]" =
      [("Content-Type", PyVal.str "application/json")] ∧
    parse_dict_list [] "!!!" = [] ∧
    parse_dict_list [] "" = [] ∧
    parse_json_body [] "\x7b\"a\": 1\x7d" = PyVal.dict [("a", PyVal.int 1)] ∧
    parse_json_body [] "\x7b\x27a\x27: 1\x7d" = PyVal.null ∧
    parse_json_body [] "" = PyVal.null :=
  ⟨rfl, rfl, rfl, rfl, rfl, rfl⟩

/-- C9 counterexample: the claim says a headers/query cell parses to a
list of single-key maps in which duplicate keys across entries are
preserved.  `parse_dict_list` merges everything into one flat dict with
`result_dict.update(item)`: `[\x7b'k': 'a'\x7d, \x7b'k': 'b'\x7d]`
collapses to the single entry `k → b`, and the `k → a` entry is gone. -/
theorem c9_duplicate_keys_collapse_counterexample :
    parse_dict_list [] "[\x7b\x27k\x27: \x27a\x27\x7d, \x7b\x27k\x27: \x27b\x27\x7d]" =
      [("k", PyVal.str "b")] ∧
    (parse_dict_list []
        "[\x7b\x27k\x27: \x27a\x27\x7d, \x7b\x27k\x27: \x27b\x27\x7d]").length = 1 ∧
    ("k", PyVal.str "a") ∉
      parse_dict_list [] "[\x7b\x27k\x27: \x27a\x27\x7d, \x7b\x27k\x27: \x27b\x27\x7d]" := by
  refine ⟨rfl, rfl, ?_⟩
  intro hm
  rw [show parse_dict_list []
      "[\x7b\x27k\x27: \x27a\x27\x7d, \x7b\x27k\x27: \x27b\x27\x7d]" =
      [("k", PyVal.str "b")] from rfl] at hm
  simp at hm

/-- C9 amended: parsing a headers/query cell produces a single merged
map; when the same key occurs in several entries the later entry
overwrites the earlier one (Python dict-update semantics). -/
theorem c9_duplicate_keys_last_wins :
    parse_dict_list [] "[\x7b\x27k\x27: \x27a\x27\x7d, \x7b\x27k\x27: \x27b\x27\x7d]" =
      [("k", PyVal.str "b")] ∧
    (∀ (k : String) (v1 v2 : PyVal),
      mergeItems [.dict [(k, v1)], .dict [(k, v2)]] = [(k, v2)]) := by
  refine ⟨rfl, fun k v1 v2 => ?_⟩
  simp [mergeItems, updateDict]

/-- C8 counterexample: the claim says a path resolving to JSON null is
stored as the literal `null`.  The serialization branch for `None` sits
inside `if value is not None` and is dead: with response
`\x7b"a": null\x7d`, the action `$x = result.a` is skipped and a prior
binding of `x` survives instead of being overwritten with `null`. -/
theorem c8_null_is_skipped_counterexample :
    execute_action [("x", "old")] "$x = result.a"
        (PyVal.dict [("a", PyVal.null)]) = [("x", "old")] ∧
    execute_action [("x", "old")] "$x = result.a"
        (PyVal.dict [("a", PyVal.null)]) ≠ [("x", "null")] :=
  ⟨rfl, by decide⟩

/-- C8 amended: when the path resolves to a non-null value the binder
stores its serialization — objects/arrays as canonical JSON text,
booleans as `true`/`false`, other scalars as their plain string form;
when the path fails to resolve or resolves to JSON null (the two are
indistinguishable to the binder, and the `null` branch is dead code),
the assignment is skipped and any prior binding is left untouched. -/
theorem c8_action_binding_semantics :
    (∀ (env : List (String × String)) (res : PyVal) (act name path : String),
      searchAction act.toList = some (name, path) →
      _get_nested_value res path = PyVal.null →
      execSingleAction res env act = env) ∧
    execute_action [] "$token = result.body.access_token"
        (PyVal.dict [("body", PyVal.dict [("access_token", PyVal.str "abc123")])]) =
      [("token", "abc123")] ∧
    execute_action [] "$x = result.a" (PyVal.dict [("a", PyVal.int 7)]) =
      [("x", "7")] ∧
    execute_action [] "$x = result.a" (PyVal.dict [("a", PyVal.bool true)]) =
      [("x", "true")] ∧
    execute_action [] "$x = result.a"
        (PyVal.dict [("a", PyVal.dict [("b", PyVal.int 1)])]) =
      [("x", "\x7b\"b\": 1\x7d")] ∧
    execute_action [("x", "old")] "$x = result.missing" (PyVal.dict []) =
      [("x", "old")] := by
  refine ⟨fun env res act name path h1 h2 => ?_, rfl, rfl, rfl, rfl, rfl⟩
  have h1d : searchAction act.data = some (name, path) := h1
  simp [execSingleAction, h1d, h2]

/-- C8 witness: the skip clause applied to the concrete null-valued
response. -/
theorem c8_action_binding_semantics_witness :
    execSingleAction (PyVal.dict [("a", PyVal.null)]) [("x", "old")]
      "$x = result.a" = [("x", "old")] :=
  c8_action_binding_semantics.1 [("x", "old")] (PyVal.dict [("a", PyVal.null)])
    "$x = result.a" "x" "a" rfl rfl

/-- C4: the path-resolution rules of `_get_nested_value`.  The empty
path returns the root; the documented Scenario B path resolves to `7`;
a `name[idx]` segment against an object whose `name` holds an array
yields the element when `idx` is in bounds and absent (`PyVal.null`)
when out of bounds or when the key is missing; a bare digit segment
indexes an array in bounds and is absent out of bounds; `length` on an
array yields its element count; a bare identifier segment looks up an
object key, absent when missing. -/
theorem c4_path_resolution_rules :
    (∀ obj : PyVal, _get_nested_value obj "" = obj) ∧
    _get_nested_value
        (PyVal.dict [("documentProcesses", PyVal.list
          [PyVal.dict [("documentReceive", PyVal.dict
            [("documentReceiveId", PyVal.int 7)])]])])
        "documentProcesses[0].documentReceive.documentReceiveId" =
      PyVal.int 7 ∧
    (∀ (d : List (String × PyVal)) (l : List PyVal) (kcs ds : List Char),
      kcs ≠ [] → (∀ c ∈ kcs, isIdentChar c = true) →
      ds ≠ [] → (∀ c ∈ ds, c.isDigit = true) →
      lookupD d (String.mk kcs) = some (.list l) →
      ∀ h : digitsVal ds < l.length,
        resolveSegment (.dict d) (String.mk (kcs ++ '[' :: (ds ++ [']']))) =
          l.get ⟨digitsVal ds, h⟩) ∧
    (∀ (d : List (String × PyVal)) (l : List PyVal) (kcs ds : List Char),
      kcs ≠ [] → (∀ c ∈ kcs, isIdentChar c = true) →
      ds ≠ [] → (∀ c ∈ ds, c.isDigit = true) →
      lookupD d (String.mk kcs) = some (.list l) →
      l.length ≤ digitsVal ds →
        resolveSegment (.dict d) (String.mk (kcs ++ '[' :: (ds ++ [']']))) =
          PyVal.null) ∧
    (∀ (d : List (String × PyVal)) (kcs ds : List Char),
      kcs ≠ [] → (∀ c ∈ kcs, isIdentChar c = true) →
      ds ≠ [] → (∀ c ∈ ds, c.isDigit = true) →
      lookupD d (String.mk kcs) = Option.none →
        resolveSegment (.dict d) (String.mk (kcs ++ '[' :: (ds ++ [']']))) =
          PyVal.null) ∧
    (∀ (l : List PyVal) (ds : List Char),
      ds ≠ [] → (∀ c ∈ ds, c.isDigit = true) →
      ∀ h : digitsVal ds < l.length,
        resolveSegment (.list l) (String.mk ds) = l.get ⟨digitsVal ds, h⟩) ∧
    (∀ (l : List PyVal) (ds : List Char),
      ds ≠ [] → (∀ c ∈ ds, c.isDigit = true) →
      l.length ≤ digitsVal ds →
        resolveSegment (.list l) (String.mk ds) = PyVal.null) ∧
    (∀ l : List PyVal,
      resolveSegment (.list l) "length" = PyVal.int l.length) ∧
    (∀ (d : List (String × PyVal)) (kcs : List Char),
      kcs ≠ [] → (∀ c ∈ kcs, isIdentChar c = true) →
      (∃ c ∈ kcs, c.isDigit = false) →
        resolveSegment (.dict d) (String.mk kcs) =
          (match lookupD d (String.mk kcs) with
           | some v => v
           | Option.none => PyVal.null)) := by
  refine ⟨fun obj => rfl, rfl, ?_, ?_, ?_, ?_, ?_, ?_, ?_⟩
  · intro d l kcs ds hk hka hd hda hl h
    unfold resolveSegment
    rw [parseIndexSeg_mk_index kcs ds hk hka hd hda]
    dsimp only
    rw [hl]
    dsimp only
    rw [List.getD_eq_getElem _ _ h]
    simp [List.get_eq_getElem]
  · intro d l kcs ds hk hka hd hda hl h
    unfold resolveSegment
    rw [parseIndexSeg_mk_index kcs ds hk hka hd hda]
    dsimp only
    rw [hl]
    dsimp only
    exact List.getD_eq_default _ _ h
  · intro d kcs ds hk hka hd hda hl
    unfold resolveSegment
    rw [parseIndexSeg_mk_index kcs ds hk hka hd hda]
    dsimp only
    rw [hl]
  · intro l ds hd hda h
    have hident : ∀ c ∈ ds, isIdentChar c = true := by
      intro c hc
      simp [isIdentChar, hda c hc]
    unfold resolveSegment
    rw [parseIndexSeg_mk_plain ds hd hident]
    rw [if_pos (by simp [isDigitStr, hd]; exact hda)]
    dsimp only
    rw [show (String.mk ds).toList = ds from rfl]
    rw [List.getD_eq_getElem _ _ h]
    simp [List.get_eq_getElem]
  · intro l ds hd hda h
    have hident : ∀ c ∈ ds, isIdentChar c = true := by
      intro c hc
      simp [isIdentChar, hda c hc]
    unfold resolveSegment
    rw [parseIndexSeg_mk_plain ds hd hident]
    rw [if_pos (by simp [isDigitStr, hd]; exact hda)]
    dsimp only
    rw [show (String.mk ds).toList = ds from rfl]
    exact List.getD_eq_default _ _ h
  · intro l
    unfold resolveSegment
    rw [show parseIndexSeg "length" = Option.none from rfl]
    rw [if_neg (by decide)]
    rfl
  · intro d kcs hk hka hnd
    have hdig : isDigitStr (String.mk kcs) = false := by
      obtain ⟨c, hc, hcd⟩ := hnd
      have hall : kcs.all Char.isDigit = false := by
        simp only [List.all_eq_false]
        exact ⟨c, hc, by simp [hcd]⟩
      simp only [isDigitStr]
      rw [show (String.mk kcs).toList = kcs from rfl, hall, Bool.and_false]
    unfold resolveSegment
    rw [parseIndexSeg_mk_plain kcs hk hka]
    rw [if_neg (by simp [hdig])]

/-- C4 witness: the hypothesis-bearing clauses applied at concrete
inputs — `items[1]` in bounds, `items[5]` out of bounds against a
3-element array, a missing key, bare `1` and `5` against a 2-element
array, and the key `body` against a one-entry object. -/
theorem c4_path_resolution_rules_witness :
    resolveSegment (PyVal.dict [("items", PyVal.list
        [PyVal.int 1, PyVal.int 2, PyVal.int 3])]) "items[1]" = PyVal.int 2 ∧
    resolveSegment (PyVal.dict [("items", PyVal.list
        [PyVal.int 1, PyVal.int 2, PyVal.int 3])]) "items[5]" = PyVal.null ∧
    resolveSegment (PyVal.dict []) "items[0]" = PyVal.null ∧
    resolveSegment (PyVal.list [PyVal.int 4, PyVal.int 5]) "1" = PyVal.int 5 ∧
    resolveSegment (PyVal.list [PyVal.int 4, PyVal.int 5]) "5" = PyVal.null ∧
    resolveSegment (PyVal.dict [("body", PyVal.str "ok")]) "body" =
      PyVal.str "ok" := by
  refine ⟨?_, ?_, ?_, ?_, ?_, ?_⟩
  · exact c4_path_resolution_rules.2.2.1
      [("items", PyVal.list [PyVal.int 1, PyVal.int 2, PyVal.int 3])]
      [PyVal.int 1, PyVal.int 2, PyVal.int 3]
      ['i', 't', 'e', 'm', 's'] ['1'] (by decide) (by decide) (by decide)
      (by decide) rfl (by decide)
  · exact c4_path_resolution_rules.2.2.2.1
      [("items", PyVal.list [PyVal.int 1, PyVal.int 2, PyVal.int 3])]
      [PyVal.int 1, PyVal.int 2, PyVal.int 3]
      ['i', 't', 'e', 'm', 's'] ['5'] (by decide) (by decide) (by decide)
      (by decide) rfl (by decide)
  · exact c4_path_resolution_rules.2.2.2.2.1 []
      ['i', 't', 'e', 'm', 's'] ['0'] (by decide) (by decide) (by decide)
      (by decide) rfl
  · exact c4_path_resolution_rules.2.2.2.2.2.1
      [PyVal.int 4, PyVal.int 5] ['1'] (by decide) (by decide) (by decide)
  · exact c4_path_resolution_rules.2.2.2.2.2.2.1
      [PyVal.int 4, PyVal.int 5] ['5'] (by decide) (by decide) (by decide)
  · exact c4_path_resolution_rules.2.2.2.2.2.2.2.2
      [("body", PyVal.str "ok")] ['b', 'o', 'd', 'y'] (by decide) (by decide)
      ⟨'b', by decide, by decide⟩

/-- C6: `$name` substitution is one literal pass.  A bound reference
`$name` is replaced by exactly the bound value — even when that value
itself contains `$` references, it is inserted verbatim and never
re-scanned; an unbound reference is left literally unchanged; every
occurrence is replaced (`$a $a` with `a ↦ x` gives `x x`); and the
spec's regression case holds: with `a` bound to the literal text `$b`
and `b` also bound, substituting `$a` yields `$b` unexpanded. -/
theorem c6_substitution_single_pass :
    (∀ (env : List (String × String)) (kcs : List Char) (v : String),
      kcs ≠ [] → (∀ c ∈ kcs, isIdentChar c = true) →
      lookupEnv env (String.mk kcs) = some v →
      replace_env_vars env (String.mk ('$' :: kcs)) = v) ∧
    (∀ (env : List (String × String)) (kcs : List Char),
      kcs ≠ [] → (∀ c ∈ kcs, isIdentChar c = true) →
      lookupEnv env (String.mk kcs) = Option.none →
      replace_env_vars env (String.mk ('$' :: kcs)) = String.mk ('$' :: kcs)) ∧
    replace_env_vars [("a", "$b"), ("b", "x")] "$a" = "$b" ∧
    replace_env_vars [("a", "x")] "$a $a" = "x x" := by
  refine ⟨fun env kcs v hk hka hl => ?_, fun env kcs hk hka hl => ?_, rfl, rfl⟩
  · have htw : List.takeWhile isIdentChar kcs = kcs :=
      List.takeWhile_eq_self_iff.mpr hka
    have hdw : List.dropWhile isIdentChar kcs = [] :=
      List.dropWhile_eq_nil_iff.mpr hka
    show String.mk (substChars (kcs.length + 1 + 1) env ('$' :: kcs)) = v
    rw [substChars]
    simp only [htw, hdw]
    rw [if_neg (by simpa using hk)]
    rw [hl]
    rw [substChars]
    simp
  · have htw : List.takeWhile isIdentChar kcs = kcs :=
      List.takeWhile_eq_self_iff.mpr hka
    have hdw : List.dropWhile isIdentChar kcs = [] :=
      List.dropWhile_eq_nil_iff.mpr hka
    show String.mk (substChars (kcs.length + 1 + 1) env ('$' :: kcs)) =
      String.mk ('$' :: kcs)
    rw [substChars]
    simp only [htw, hdw]
    rw [if_neg (by simpa using hk)]
    rw [hl]
    rw [substChars]
    simp

/-- C6 witness: the bound clause applied to the binding `a ↦ $b` (with
`b` also bound, confirming no re-expansion), and the unbound clause
applied to `$q` against a store that does not bind `q`. -/
theorem c6_substitution_single_pass_witness :
    replace_env_vars [("a", "$b"), ("b", "x")] (String.mk ['$', 'a']) = "$b" ∧
    replace_env_vars [("a", "x")] (String.mk ['$', 'q']) =
      String.mk ['$', 'q'] :=
  ⟨c6_substitution_single_pass.1 [("a", "$b"), ("b", "x")] ['a'] "$b"
      (by decide) (by decide) rfl,
    c6_substitution_single_pass.2.1 [("a", "x")] ['q']
      (by decide) (by decide) rfl⟩

/-- C10: cycle aggregation over the numeric elapsed-time samples.  For
`[10, 20, 30]`: min 10, max 30, mean 20, median 20, and a strictly
positive sample standard deviation; exactly one sample gives standard
deviation 0; zero numeric samples leave every statistic absent (`None`),
with no division performed. -/
theorem c10_aggregation_statistics :
    (_aggregate_cycle_results [⟨"Passed", some 10⟩, ⟨"Passed", some 20⟩,
        ⟨"Passed", some 30⟩]).min_time_ms = some 10 ∧
    (_aggregate_cycle_results [⟨"Passed", some 10⟩, ⟨"Passed", some 20⟩,
        ⟨"Passed", some 30⟩]).max_time_ms = some 30 ∧
    (_aggregate_cycle_results [⟨"Passed", some 10⟩, ⟨"Passed", some 20⟩,
        ⟨"Passed", some 30⟩]).avg_time_ms = some 20 ∧
    (_aggregate_cycle_results [⟨"Passed", some 10⟩, ⟨"Passed", some 20⟩,
        ⟨"Passed", some 30⟩]).median_time_ms = some 20 ∧
    (∃ s : ℝ, stdDevMs [⟨"Passed", some 10⟩, ⟨"Passed", some 20⟩,
        ⟨"Passed", some 30⟩] = some s ∧ 0 < s) ∧
    (∀ (st : String) (t : ℚ), stdDevMs [⟨st, some t⟩] = some 0) ∧
    (∀ cd : List RunResult, responseTimes cd = [] →
      (_aggregate_cycle_results cd).min_time_ms = Option.none ∧
      (_aggregate_cycle_results cd).max_time_ms = Option.none ∧
      (_aggregate_cycle_results cd).avg_time_ms = Option.none ∧
      (_aggregate_cycle_results cd).median_time_ms = Option.none ∧
      stdDevMs cd = Option.none) := by
  refine ⟨?_, ?_, ?_, ?_, ?_, fun st t => rfl, fun cd h => ?_⟩
  · norm_num [_aggregate_cycle_results, listMinQ, responseTimes,
      List.filterMap_cons, List.filterMap_nil]
  · norm_num [_aggregate_cycle_results, listMaxQ, responseTimes,
      List.filterMap_cons, List.filterMap_nil]
  · norm_num [_aggregate_cycle_results, meanQ, responseTimes,
      List.filterMap_cons, List.filterMap_nil]
  · norm_num [_aggregate_cycle_results, medianQ, responseTimes, sortQ,
      insertSorted, List.filterMap_cons, List.filterMap_nil]
  · refine ⟨Real.sqrt ((sampleVarQ [10, 20, 30] : ℚ) : ℝ), rfl, ?_⟩
    apply Real.sqrt_pos.mpr
    rw [show sampleVarQ [10, 20, 30] = 100 from by norm_num [sampleVarQ]]
    norm_num
  · refine ⟨?_, ?_, ?_, ?_, ?_⟩ <;>
      simp [_aggregate_cycle_results, h, listMinQ, listMaxQ, meanQ, medianQ,
        stdDevMs]

/-- C10 witness: the zero-sample clause applied to a run list whose
single entry recorded no numeric elapsed time. -/
theorem c10_aggregation_statistics_witness :
    (_aggregate_cycle_results [⟨"Skipped", Option.none⟩]).min_time_ms =
      Option.none ∧
    stdDevMs [⟨"Skipped", Option.none⟩] = Option.none :=
  ⟨(c10_aggregation_statistics.2.2.2.2.2.2 [⟨"Skipped", Option.none⟩] rfl).1,
    (c10_aggregation_statistics.2.2.2.2.2.2 [⟨"Skipped", Option.none⟩]
      rfl).2.2.2.2⟩

end TestXLAPI
